import Mathlib

set_option maxRecDepth 40000
set_option exponentiation.threshold 2000

/-!
Verification of the Grist → Démarches Simplifiées annotation synchronizer.

This file gives a shallow embedding of the decision logic of the repository
(`shared/grist_client.py`, `shared/ds_client.py`, `shared/sync_engine.py`)
and proves or refutes the specification claims about it.

Python scalar values are modelled by the inductive `PyVal`; dictionaries are
association lists; the external HTTP collaborators (Grist and DS network
calls) are passed in as oracle functions, matching the spec's treatment of
them as abstract capability contracts.  Python exceptions that the code can
actually raise on the modelled paths (`ValueError`, `TypeError`,
`OverflowError`) are modelled with `Except` and the `PExc` type.
-/

/-- Association-list lookup, first binding wins.  Models indexing into a
Python dict whose keys are unique (parsed JSON objects, record fields). -/
def alookup {κ α : Type} [DecidableEq κ] : List (κ × α) → κ → Option α
  | [], _ => Option.none
  | (k, v) :: rest, key => if k = key then some v else alookup rest key

/-- Lookup where the *last* binding wins: models a Python dict built by a
loop that overwrites earlier entries (`d[k] = v` repeated). -/
def dlookup {κ α : Type} [DecidableEq κ] (l : List (κ × α)) (key : κ) : Option α :=
  alookup l.reverse key

/-- Characters stripped by Python's `str.strip()` (ASCII whitespace). -/
def isPySpace (c : Char) : Bool :=
  c = ' ' || c = '\t' || c = '\n' || c = '\r' || c = '\x0b' || c = '\x0c'

/-- Python `str.strip()` on a character list. -/
def stripChars (l : List Char) : List Char :=
  ((l.dropWhile isPySpace).reverse.dropWhile isPySpace).reverse

/-- ASCII lower-casing of a character list (models `str.lower()`; the type
names and vocabulary words compared in the code are all ASCII). -/
def lowerChars (l : List Char) : List Char := l.map Char.toLower

/-- ASCII lower-casing of a string (models `str.lower()`). -/
def strLower (s : String) : String := String.mk (lowerChars s.data)

/-- Python exceptions reachable on the modelled code paths. -/
inductive PExc where
  | valueError (msg : String)
  | typeError (msg : String)
  | overflowError (msg : String)
deriving DecidableEq

/-- The message text of an exception (`str(e)`). -/
def pexcMsg : PExc → String
  | .valueError m => m
  | .typeError m => m
  | .overflowError m => m

/-- An exact fraction: integer numerator over positive natural denominator
(kept unnormalized; all comparisons cross-multiply). -/
structure Frac where
  num : Int
  den : Nat
deriving DecidableEq

/-- The fraction `n / 1`. -/
def fracOfInt (n : Int) : Frac := ⟨n, 1⟩

/-- Equality of fractions as rational numbers. -/
def fracEq (a b : Frac) : Bool := decide (a.num * (b.den : Int) = b.num * (a.den : Int))

/-- Order on fractions as rational numbers (denominators positive). -/
def fracLe (a b : Frac) : Bool := decide (a.num * (b.den : Int) ≤ b.num * (a.den : Int))

/-- Negation of a fraction. -/
def fracNeg (a : Frac) : Frac := ⟨-a.num, a.den⟩

/-- Classification of a Python float.  Finite values are carried exactly as
fractions (every IEEE double is rational; the operations the code performs
on floats — truncation to int, comparison with zero, equality — are exact
on rationals). -/
inductive PFloat where
  | finite (q : Frac)
  | inf
  | neginf
  | nan
deriving DecidableEq

/-- A Python scalar value as it appears in a Grist record field or a config
entry: `None`, a bool, an int, a float, a string, or a list. -/
inductive PyVal where
  | none
  | bool (b : Bool)
  | int (n : Int)
  | float (f : PFloat)
  | str (s : String)
  | list (l : List PyVal)

/-- Record fields: a Python dict from column name to value. -/
abbrev Fields := List (String × PyVal)

/-- Numeric view used by Python `==`: bools compare as 0/1 with ints and
floats. -/
inductive NumV where
  | fin (q : Frac)
  | pinf
  | ninf
  | nan

/-- Numeric content of a value, if it has one (`bool`, `int`, `float`). -/
def numOf : PyVal → Option NumV
  | .bool b => some (.fin (fracOfInt (if b then 1 else 0)))
  | .int n => some (.fin (fracOfInt n))
  | .float (.finite q) => some (.fin q)
  | .float .inf => some .pinf
  | .float .neginf => some .ninf
  | .float .nan => some .nan
  | _ => Option.none

/-- Equality of numeric views; NaN is equal to nothing, as in Python. -/
def numEq : NumV → NumV → Bool
  | .fin a, .fin b => fracEq a b
  | .pinf, .pinf => true
  | .ninf, .ninf => true
  | _, _ => false

mutual

/-- Python `==` on the modelled values: numeric cross-type equality
(`0 == False`, `1 == 1.0`), string equality, `None == None`, elementwise
list equality; everything else is unequal. -/
def pyEq : PyVal → PyVal → Bool
  | a, b =>
    match numOf a, numOf b with
    | some x, some y => numEq x y
    | _, _ =>
      match a, b with
      | .str s, .str t => decide (s = t)
      | .none, .none => true
      | .list xs, .list ys => pyEqList xs ys
      | _, _ => false

/-- Elementwise Python `==` on lists. -/
def pyEqList : List PyVal → List PyVal → Bool
  | [], [] => true
  | x :: xs, y :: ys => pyEq x y && pyEqList xs ys
  | _, _ => false

end

/-- Python truthiness (`bool(v)`): `None`, `False`, numeric zero, the empty
string and the empty list are falsy. -/
def pyTruthy : PyVal → Bool
  | .none => false
  | .bool b => b
  | .int n => decide (n ≠ 0)
  | .float (.finite q) => decide (q.num ≠ 0)
  | .float _ => true
  | .str s => decide (s ≠ "")
  | .list l => !l.isEmpty

/-- Python `v is None`. -/
def pyIsNone : PyVal → Bool
  | .none => true
  | _ => false

/-- Decimal digits of the fractional part `r / d`, up to `fuel` digits
(models the repr of a float's fractional part; actual doubles terminate). -/
def fracDigits : Nat → Nat → Nat → List Char
  | 0, _, _ => []
  | _, 0, _ => []
  | fuel + 1, r, d =>
    let r10 := r * 10
    Char.ofNat (48 + r10 / d) :: fracDigits fuel (r10 % d) d

/-- Decimal rendering of a rational float value (models Python float repr;
integral values render with a trailing `.0` exactly as Python does). -/
def ratPyRepr (q : Frac) : String :=
  let sign := if q.num < 0 then "-" else ""
  let na := q.num.natAbs
  let ip := na / q.den
  let r := na % q.den
  sign ++ toString ip ++ "." ++ (if r = 0 then "0" else String.mk (fracDigits 17 r q.den))

/-- Python `str()` / `repr()` of a float. -/
def floatStr : PFloat → String
  | .finite q => ratPyRepr q
  | .inf => "inf"
  | .neginf => "-inf"
  | .nan => "nan"

mutual

/-- Python `repr()` of a value (string escaping approximated: quotes only). -/
def pyRepr : PyVal → String
  | .none => "None"
  | .bool b => if b then "True" else "False"
  | .int n => toString n
  | .float f => floatStr f
  | .str s => "'" ++ s ++ "'"
  | .list l => "[" ++ pyReprJoin l ++ "]"

/-- Comma-joined reprs of list elements. -/
def pyReprJoin : List PyVal → String
  | [] => ""
  | [x] => pyRepr x
  | x :: rest => pyRepr x ++ ", " ++ pyReprJoin rest

end

/-- Python `str()` of a value: identity on strings, repr-like elsewhere. -/
def pyStr : PyVal → String
  | .str s => s
  | .none => "None"
  | .bool b => if b then "True" else "False"
  | .int n => toString n
  | .float f => floatStr f
  | .list l => "[" ++ pyReprJoin l ++ "]"

/-- Python `str(type(v))`, used in one error message of the synchronizer. -/
def pyTypeName : PyVal → String
  | .none => "<class 'NoneType'>"
  | .bool _ => "<class 'bool'>"
  | .int _ => "<class 'int'>"
  | .float _ => "<class 'float'>"
  | .str _ => "<class 'str'>"
  | .list _ => "<class 'list'>"

/-- Truncation of a rational toward zero: Python `int(float)` on a finite
float. -/
def ratTrunc (q : Frac) : Int :=
  if q.num ≥ 0 then ((q.num.toNat / q.den : Nat) : Int)
  else -(((-q.num).toNat / q.den : Nat) : Int)

/-- Continuation of a digit run: digits with single underscores allowed
between digits (Python numeric literal rule).  Returns the digits read and
the unconsumed rest. -/
def digitsTail : List Char → List Char × List Char
  | '_' :: c :: rest =>
    if c.isDigit then
      let p := digitsTail rest
      (c :: p.1, p.2)
    else ([], '_' :: c :: rest)
  | c :: rest =>
    if c.isDigit then
      let p := digitsTail rest
      (c :: p.1, p.2)
    else ([], c :: rest)
  | [] => ([], [])

/-- A possibly-empty digit run with underscore grouping. -/
def parseDigitsOpt (l : List Char) : List Char × List Char :=
  match l with
  | c :: rest =>
    if c.isDigit then
      let p := digitsTail rest
      (c :: p.1, p.2)
    else ([], l)
  | [] => ([], l)

/-- Numeric value of a digit list. -/
def digitsToNat (l : List Char) : Nat :=
  l.foldl (fun a c => a * 10 + (c.toNat - 48)) 0

/-- A full nonempty digit run consuming the whole input, or failure. -/
def parseUnsignedInt (l : List Char) : Option Nat :=
  match l with
  | c :: rest =>
    if c.isDigit then
      let p := digitsTail rest
      if p.2 = [] then some (digitsToNat (c :: p.1)) else Option.none
    else Option.none
  | [] => Option.none

/-- Python `int(s)` on a string: strips whitespace, allows one sign, then a
digit run; anything else is a `ValueError`. -/
def pyIntParse (s : String) : Option Int :=
  let l := stripChars s.data
  match l with
  | '+' :: rest => (parseUnsignedInt rest).map Int.ofNat
  | '-' :: rest => (parseUnsignedInt rest).map (fun n => -(n : Int))
  | _ => (parseUnsignedInt l).map Int.ofNat

/-- Magnitude `mant * 10 ^ (ex - fracLen)` of a parsed decimal literal. -/
def ratScale (mant : Nat) (ex : Int) (fracLen : Nat) : Frac :=
  if (fracLen : Int) ≤ ex then ⟨(mant * 10 ^ (ex - (fracLen : Int)).toNat : Nat), 1⟩
  else ⟨(mant : Int), 10 ^ ((fracLen : Int) - ex).toNat⟩

/-- Exponent part after `e`/`E`: optional sign then digits, consuming all
remaining input. -/
def parseExpPart (l : List Char) : Option Int :=
  match l with
  | '+' :: rest => (parseUnsignedInt rest).map Int.ofNat
  | '-' :: rest => (parseUnsignedInt rest).map (fun n => -(n : Int))
  | _ => (parseUnsignedInt l).map Int.ofNat

/-- Body of a decimal float literal (after the sign): integer digits,
optional fraction, optional exponent.  Returns the exact magnitude. -/
def parseFloatBody (l : List Char) : Option Frac :=
  let ipr := parseDigitsOpt l
  let ip := ipr.1
  let fr : List Char × List Char :=
    match ipr.2 with
    | '.' :: rest => parseDigitsOpt rest
    | _ => ([], ipr.2)
  let fp := fr.1
  if ip.isEmpty && fp.isEmpty then Option.none
  else
    let mant : Nat := digitsToNat (ip ++ fp)
    let fl : Nat := fp.length
    match fr.2 with
    | [] => some (ratScale mant 0 fl)
    | 'e' :: rest => (parseExpPart rest).map (fun ex => ratScale mant ex fl)
    | 'E' :: rest => (parseExpPart rest).map (fun ex => ratScale mant ex fl)
    | _ => Option.none

/-- Magnitudes at or above `2 ^ 1024` overflow a double: `float(s)` yields
an infinity for them (boundary rounding of IEEE round-to-nearest is
idealized to the exact power of two). -/
def floatMaxBound : Frac := ⟨((2 ^ 1024 : Nat) : Int), 1⟩

/-- Attach the sign to a parsed magnitude, overflowing to an infinity. -/
def signedFloatOfMag (neg : Bool) (q : Frac) : PFloat :=
  if fracLe floatMaxBound q then (if neg then PFloat.neginf else PFloat.inf)
  else PFloat.finite (if neg then fracNeg q else q)

/-- Python `float(s)` on a string: strip, optional sign, then `inf`,
`infinity`, `nan` (case-insensitive) or a decimal literal.  `Option.none`
is a `ValueError`. -/
def pyFloatParse (s : String) : Option PFloat :=
  let l := stripChars s.data
  let sr : Bool × List Char :=
    match l with
    | '+' :: r => (false, r)
    | '-' :: r => (true, r)
    | _ => (false, l)
  let body := sr.2
  let low := lowerChars body
  if low = ['i', 'n', 'f'] || low = ['i', 'n', 'f', 'i', 'n', 'i', 't', 'y'] then
    some (if sr.1 then PFloat.neginf else PFloat.inf)
  else if low = ['n', 'a', 'n'] then some PFloat.nan
  else (parseFloatBody body).map (signedFloatOfMag sr.1)

/-- Python `float(v)` on an arbitrary value: floats pass through, bools and
ints convert (huge ints overflow), strings parse, anything else is a
`TypeError`. -/
def pyFloatOfVal : PyVal → Except PExc PFloat
  | .bool b => .ok (.finite (fracOfInt (if b then 1 else 0)))
  | .int n =>
    if fracLe floatMaxBound ⟨((n.natAbs : Nat) : Int), 1⟩ then
      .error (.overflowError "int too large to convert to float")
    else .ok (.finite (fracOfInt n))
  | .float f => .ok f
  | .str s =>
    match pyFloatParse s with
    | some f => .ok f
    | Option.none =>
      .error (.valueError ("could not convert string to float: '" ++ s ++ "'"))
  | .none => .error (.typeError "float() argument must be a string or a real number, not 'NoneType'")
  | .list _ => .error (.typeError "float() argument must be a string or a real number, not 'list'")

/-- Python `int(f)` on a float: truncates finite values; `OverflowError`
on infinities, `ValueError` on NaN. -/
def intOfPFloat : PFloat → Except PExc Int
  | .finite q => .ok (ratTrunc q)
  | .inf => .error (.overflowError "cannot convert float infinity to integer")
  | .neginf => .error (.overflowError "cannot convert float infinity to integer")
  | .nan => .error (.valueError "cannot convert float NaN to integer")


/-! ## MD5 (hashlib.md5, used by `calculate_data_hash`)

A direct implementation of RFC 1321 over byte lists, with 32-bit words as
naturals reduced modulo `2 ^ 32`. -/

/-- Reduce modulo `2 ^ 32`. -/
def m32 (n : Nat) : Nat := n % 4294967296

/-- Addition modulo `2 ^ 32`. -/
def madd (a b : Nat) : Nat := m32 (a + b)

/-- Bitwise complement within 32 bits. -/
def mnot (a : Nat) : Nat := 4294967295 - m32 a

/-- Left rotation of a 32-bit word by `c` (for `0 < c < 32`). -/
def rotl (x c : Nat) : Nat := m32 (x * 2 ^ c) ||| (m32 x / 2 ^ (32 - c))

/-- Per-round shift amounts of MD5. -/
def md5S : List Nat :=
  [7, 12, 17, 22, 7, 12, 17, 22, 7, 12, 17, 22, 7, 12, 17, 22,
   5, 9, 14, 20, 5, 9, 14, 20, 5, 9, 14, 20, 5, 9, 14, 20,
   4, 11, 16, 23, 4, 11, 16, 23, 4, 11, 16, 23, 4, 11, 16, 23,
   6, 10, 15, 21, 6, 10, 15, 21, 6, 10, 15, 21, 6, 10, 15, 21]

/-- Sine-derived additive constants of MD5. -/
def md5K : List Nat :=
  [0xd76aa478, 0xe8c7b756, 0x242070db, 0xc1bdceee,
   0xf57c0faf, 0x4787c62a, 0xa8304613, 0xfd469501,
   0x698098d8, 0x8b44f7af, 0xffff5bb1, 0x895cd7be,
   0x6b901122, 0xfd987193, 0xa679438e, 0x49b40821,
   0xf61e2562, 0xc040b340, 0x265e5a51, 0xe9b6c7aa,
   0xd62f105d, 0x02441453, 0xd8a1e681, 0xe7d3fbc8,
   0x21e1cde6, 0xc33707d6, 0xf4d50d87, 0x455a14ed,
   0xa9e3e905, 0xfcefa3f8, 0x676f02d9, 0x8d2a4c8a,
   0xfffa3942, 0x8771f681, 0x6d9d6122, 0xfde5380c,
   0xa4beea44, 0x4bdecfa9, 0xf6bb4b60, 0xbebfbc70,
   0x289b7ec6, 0xeaa127fa, 0xd4ef3085, 0x04881d05,
   0xd9d4d039, 0xe6db99e5, 0x1fa27cf8, 0xc4ac5665,
   0xf4292244, 0x432aff97, 0xab9423a7, 0xfc93a039,
   0x655b59c3, 0x8f0ccc92, 0xffeff47d, 0x85845dd1,
   0x6fa87e4f, 0xfe2ce6e0, 0xa3014314, 0x4e0811a1,
   0xf7537e82, 0xbd3af235, 0x2ad7d2bb, 0xeb86d391]

/-- Little-endian 32-bit words from a byte list. -/
def bytesToWordsLE : List Nat → List Nat
  | b0 :: b1 :: b2 :: b3 :: rest =>
    (b0 + 256 * b1 + 65536 * b2 + 16777216 * b3) :: bytesToWordsLE rest
  | _ => []

/-- Split a list into chunks of `n` elements (`fuel` bounds the recursion;
called with `fuel = l.length`). -/
def chunksOf (n : Nat) : Nat → List Nat → List (List Nat)
  | _, [] => []
  | 0, _ => []
  | fuel + 1, l => l.take n :: chunksOf n fuel (l.drop n)

/-- The eight little-endian bytes of the 64-bit bit-length field. -/
def lenBytesLE (n : Nat) : List Nat :=
  [n % 256, n / 256 % 256, n / 65536 % 256, n / 16777216 % 256,
   n / 4294967296 % 256, n / 1099511627776 % 256,
   n / 281474976710656 % 256, n / 72057594037927936 % 256]

/-- MD5 padding: a 1-bit, zeros to 56 mod 64 bytes, then the bit length. -/
def md5Pad (msg : List Nat) : List Nat :=
  let len := msg.length
  let zeros := (119 - len % 64) % 64
  msg ++ [128] ++ List.replicate zeros 0 ++ lenBytesLE (8 * len % 18446744073709551616)

/-- One of the 64 MD5 operations on the running state `(a, b, c, d)`. -/
def md5Op (M : List Nat) (st : Nat × Nat × Nat × Nat) (i : Nat) : Nat × Nat × Nat × Nat :=
  let a := st.1
  let b := st.2.1
  let c := st.2.2.1
  let d := st.2.2.2
  let fg : Nat × Nat :=
    if i < 16 then ((b &&& c) ||| (mnot b &&& d), i)
    else if i < 32 then ((d &&& b) ||| (mnot d &&& c), (5 * i + 1) % 16)
    else if i < 48 then (b ^^^ c ^^^ d, (3 * i + 5) % 16)
    else (c ^^^ (b ||| mnot d), (7 * i) % 16)
  let tmp := madd (madd (madd fg.1 a) (md5K.getD i 0)) (M.getD fg.2 0)
  (d, madd b (rotl tmp (md5S.getD i 0)), b, c)

/-- Process one 64-byte chunk. -/
def md5Chunk (st : Nat × Nat × Nat × Nat) (chunk : List Nat) : Nat × Nat × Nat × Nat :=
  let M := bytesToWordsLE chunk
  let r := (List.range 64).foldl (md5Op M) st
  (madd r.1 st.1, madd r.2.1 st.2.1, madd r.2.2.1 st.2.2.1, madd r.2.2.2 st.2.2.2)

/-- The four final state words of MD5 over a byte message. -/
def md5Core (msg : List Nat) : Nat × Nat × Nat × Nat :=
  let padded := md5Pad msg
  (chunksOf 64 padded.length padded).foldl md5Chunk
    (0x67452301, 0xefcdab89, 0x98badcfe, 0x10325476)

/-- Little-endian bytes of a 32-bit word. -/
def wordBytesLE (w : Nat) : List Nat :=
  [w % 256, w / 256 % 256, w / 65536 % 256, w / 16777216 % 256]

/-- Lower-case hexadecimal digit. -/
def hexDigitChar (n : Nat) : Char :=
  if n < 10 then Char.ofNat (48 + n) else Char.ofNat (87 + n)

/-- Two hex characters per byte, over a byte list. -/
def hexJoin : List Nat → List Char
  | [] => []
  | b :: rest => hexDigitChar (b / 16 % 16) :: hexDigitChar (b % 16) :: hexJoin rest

/-- The 32 hex characters of an MD5 digest. -/
def md5HexChars (msg : List Nat) : List Char :=
  let st := md5Core msg
  hexJoin (wordBytesLE st.1 ++ wordBytesLE st.2.1 ++ wordBytesLE st.2.2.1 ++ wordBytesLE st.2.2.2)

/-- The truncated digest `hashlib.md5(...).hexdigest()[:12]`. -/
def md5Hex12 (msg : List Nat) : String := String.mk ((md5HexChars msg).take 12)

/-- UTF-8 encoding of one code point. -/
def utf8Char (n : Nat) : List Nat :=
  if n < 128 then [n]
  else if n < 2048 then [192 + n / 64, 128 + n % 64]
  else if n < 65536 then [224 + n / 4096, 128 + n / 64 % 64, 128 + n % 64]
  else [240 + n / 262144, 128 + n / 4096 % 64, 128 + n / 64 % 64, 128 + n % 64]

/-- UTF-8 encoding of a character list. -/
def utf8Go : List Char → List Nat
  | [] => []
  | c :: rest => utf8Char c.toNat ++ utf8Go rest

/-- UTF-8 bytes of a string (`str.encode()`). -/
def utf8Bytes (s : String) : List Nat := utf8Go s.data

/-! ## JSON serialization (json.dumps with sort_keys=True, default=str)

Only what `calculate_data_hash` feeds to the hash: an object whose keys are
column names and whose values are the modelled scalars. -/

/-- Four hex digits of a code unit (for `\uXXXX` escapes). -/
def hex4 (n : Nat) : String :=
  String.mk [hexDigitChar (n / 4096 % 16), hexDigitChar (n / 256 % 16),
             hexDigitChar (n / 16 % 16), hexDigitChar (n % 16)]

/-- JSON escape of one character, `ensure_ascii` style. -/
def jsonEscChar (c : Char) : String :=
  if c = '\"' then "\\\""
  else if c = '\\' then "\\\\"
  else if c = '\n' then "\\n"
  else if c = '\r' then "\\r"
  else if c = '\t' then "\\t"
  else if c = '\x08' then "\\b"
  else if c = '\x0c' then "\\f"
  else if c.toNat < 32 then "\\u" ++ hex4 c.toNat
  else if c.toNat < 128 then String.mk [c]
  else if c.toNat < 65536 then "\\u" ++ hex4 c.toNat
  else
    let n := c.toNat - 65536
    "\\u" ++ hex4 (55296 + n / 1024) ++ "\\u" ++ hex4 (56320 + n % 1024)

/-- JSON escaping over a character list. -/
def jsonEscGo : List Char → String
  | [] => ""
  | c :: rest => jsonEscChar c ++ jsonEscGo rest

/-- A JSON string literal. -/
def jsonQuote (s : String) : String := "\"" ++ jsonEscGo s.data ++ "\""

/-- JSON rendering of a float (`Infinity` / `NaN` as json.dumps emits). -/
def jsonFloatStr : PFloat → String
  | .finite q => ratPyRepr q
  | .inf => "Infinity"
  | .neginf => "-Infinity"
  | .nan => "NaN"

mutual

/-- JSON rendering of a value. -/
def jsonVal : PyVal → String
  | .none => "null"
  | .bool b => if b then "true" else "false"
  | .int n => toString n
  | .float f => jsonFloatStr f
  | .str s => jsonQuote s
  | .list l => "[" ++ jsonValJoin l ++ "]"

/-- Comma-joined JSON renderings of list elements. -/
def jsonValJoin : List PyVal → String
  | [] => ""
  | [x] => jsonVal x
  | x :: rest => jsonVal x ++ ", " ++ jsonValJoin rest

end

/-- Comma-joined `"key": value` pairs of an object. -/
def jsonEntriesJoin : List (String × PyVal) → String
  | [] => ""
  | [(k, v)] => jsonQuote k ++ ": " ++ jsonVal v
  | (k, v) :: rest => jsonQuote k ++ ": " ++ jsonVal v ++ ", " ++ jsonEntriesJoin rest

/-- Serialization `json.dumps` of an object given its (already sorted) entry list. -/
def jsonDumpsObj (entries : List (String × PyVal)) : String :=
  "\x7b" ++ jsonEntriesJoin entries ++ "\x7d"

/-! ## grist_client.py : change detection -/

/-- Insertion into a sorted string list. -/
def insertSorted (x : String) : List String → List String
  | [] => [x]
  | y :: rest => if x ≤ y then x :: y :: rest else y :: insertSorted x rest

/-- Sorting of string keys (`sort_keys=True`). -/
def sortStrings (l : List String) : List String := l.foldr insertSorted []

/-- The distinct tracked columns that are present in the record:
the keys of the `sync_data` dict built by `calculate_data_hash`. -/
def syncDataKeys (fields : Fields) (columnsToSync : List String) : List String :=
  (columnsToSync.filter (fun c => (alookup fields c).isSome)).dedup

/-- The `sync_data` projection, sorted by key as `json.dumps(·, sort_keys=True)`
serializes it. -/
def syncEntries (fields : Fields) (columnsToSync : List String) : List (String × PyVal) :=
  (sortStrings (syncDataKeys fields columnsToSync)).map
    (fun k => (k, (alookup fields k).getD PyVal.none))

/-- Model of `GristClient.calculate_data_hash`: project the record onto the tracked
columns, serialize deterministically, md5, keep 12 hex characters. -/
def calculate_data_hash (fields : Fields) (columnsToSync : List String) : String :=
  md5Hex12 (utf8Bytes (jsonDumpsObj (syncEntries fields columnsToSync)))

/-- The status-based part of the candidate test in
`GristClient.get_records_to_sync`: the `should_sync` flag for one record. -/
def statusShouldSync (fields : Fields) (statusCol : String) (columnsToSync : List String)
    (detectChanges : Bool) : Bool :=
  match alookup fields statusCol with
  | some st =>
    if pyEq st PyVal.none || pyEq st (.str "") || pyEq st (.str "error")
        || pyEq st (.str "pending") then true
    else if detectChanges && !columnsToSync.isEmpty && pyEq st (.str "success") then
      !(pyEq (.str (calculate_data_hash fields columnsToSync))
          ((alookup fields "sync_hash").getD (.str "")))
    else false
  | Option.none => true

/-- One record of a Grist table. -/
structure GristRecord where
  rid : Int
  fields : Fields

/-- Whether one record is selected by `GristClient.get_records_to_sync`:
it must have a truthy dossier number, and then pass `statusShouldSync`. -/
def recordKept (dossierCol statusCol : String) (columnsToSync : List String)
    (detectChanges : Bool) (fields : Fields) : Bool :=
  match alookup fields dossierCol with
  | Option.none => false
  | some dv => pyTruthy dv && statusShouldSync fields statusCol columnsToSync detectChanges

/-- Model of `GristClient.get_records_to_sync` over an already-fetched table: the
selected records, each paired with the `_current_hash` annotation the code
attaches when a tracked-column set is configured. -/
def get_records_to_sync (records : List GristRecord) (dossierCol statusCol : String)
    (columnsToSync : List String) (detectChanges : Bool) :
    List (GristRecord × Option String) :=
  (records.filter (fun r => recordKept dossierCol statusCol columnsToSync detectChanges r.fields)).map
    (fun r => (r, if columnsToSync.isEmpty then Option.none
                  else some (calculate_data_hash r.fields columnsToSync)))

/-! ## ds_client.py : compatibility resolver, value coercer, dispatcher -/

/-- Does `pat` start `l`? -/
def isPrefixList : List Char → List Char → Bool
  | [], _ => true
  | _, [] => false
  | p :: ps, c :: cs => p = c && isPrefixList ps cs

/-- Python `str.replace`: replace every non-overlapping occurrence of `pat`
left to right (`fuel` bounds recursion; called with the input length). -/
def replaceAll (pat rep : List Char) : Nat → List Char → List Char
  | _, [] => []
  | 0, l => l
  | fuel + 1, c :: rest =>
    if !pat.isEmpty && isPrefixList pat (c :: rest) then
      rep ++ replaceAll pat rep fuel ((c :: rest).drop pat.length)
    else c :: replaceAll pat rep fuel rest

/-- Normalization `ds_annotation_type.lower().replace('annotation_descriptor_', '')`. -/
def normalizeDsType (s : String) : String :=
  let low := lowerChars s.data
  String.mk (replaceAll "annotation_descriptor_".data [] low.length low)

/-- Row of the compatibility table for Grist type `Text`. -/
def compatRowText (d : String) : Option String :=
  if d = "text" then some "compatible"
  else if d = "textarea" then some "compatible"
  else if d = "checkbox" then some "needs_conversion"
  else if d = "date" then some "needs_conversion"
  else if d = "datetime" then some "needs_conversion"
  else if d = "number" then some "needs_conversion"
  else if d = "integer_number" then some "needs_conversion"
  else if d = "decimal_number" then some "needs_conversion"
  else if d = "drop_down_list" then some "compatible"
  else Option.none

/-- Row of the compatibility table shared by Grist types `Numeric` and `Int`. -/
def compatRowNumeric (d : String) : Option String :=
  if d = "text" then some "compatible"
  else if d = "textarea" then some "compatible"
  else if d = "number" then some "compatible"
  else if d = "integer_number" then some "compatible"
  else if d = "decimal_number" then some "compatible"
  else if d = "checkbox" then some "incompatible"
  else if d = "date" then some "incompatible"
  else if d = "datetime" then some "incompatible"
  else if d = "drop_down_list" then some "needs_conversion"
  else Option.none

/-- Row of the compatibility table for Grist type `Date`. -/
def compatRowDate (d : String) : Option String :=
  if d = "text" then some "compatible"
  else if d = "textarea" then some "compatible"
  else if d = "date" then some "compatible"
  else if d = "datetime" then some "compatible"
  else if d = "checkbox" then some "incompatible"
  else if d = "number" then some "incompatible"
  else if d = "integer_number" then some "incompatible"
  else if d = "decimal_number" then some "incompatible"
  else if d = "drop_down_list" then some "incompatible"
  else Option.none

/-- Row of the compatibility table for Grist type `DateTime`. -/
def compatRowDateTime (d : String) : Option String :=
  if d = "text" then some "compatible"
  else if d = "textarea" then some "compatible"
  else if d = "date" then some "needs_conversion"
  else if d = "datetime" then some "compatible"
  else if d = "checkbox" then some "incompatible"
  else if d = "number" then some "incompatible"
  else if d = "integer_number" then some "incompatible"
  else if d = "decimal_number" then some "incompatible"
  else if d = "drop_down_list" then some "incompatible"
  else Option.none

/-- Row of the compatibility table for Grist type `Bool`. -/
def compatRowBool (d : String) : Option String :=
  if d = "text" then some "compatible"
  else if d = "textarea" then some "compatible"
  else if d = "checkbox" then some "compatible"
  else if d = "date" then some "incompatible"
  else if d = "datetime" then some "incompatible"
  else if d = "number" then some "incompatible"
  else if d = "integer_number" then some "incompatible"
  else if d = "decimal_number" then some "incompatible"
  else if d = "drop_down_list" then some "needs_conversion"
  else Option.none

/-- The `compatibility_map` of `DSClient.check_compatibility`, keyed by
Grist type. -/
def compatRowFor (gristType : String) : Option (String → Option String) :=
  if gristType = "Text" then some compatRowText
  else if gristType = "Numeric" then some compatRowNumeric
  else if gristType = "Int" then some compatRowNumeric
  else if gristType = "Date" then some compatRowDate
  else if gristType = "DateTime" then some compatRowDateTime
  else if gristType = "Bool" then some compatRowBool
  else Option.none

/-- The fixed vocabulary recognized by the free-text → checkbox override. -/
def checkboxVocab : List String := ["true", "false", "1", "0", "oui", "non", "yes", "no"]

/-- Model of `DSClient.check_compatibility(grist_type, ds_annotation_type, grist_value)`.
`PyVal.none` for `gristValue` models the Python default `None` (no sample
value).  The result is `.error e` when the Python code lets exception `e`
escape: `int(float(str(v)))` on an infinite value raises `OverflowError`,
which the surrounding `except (ValueError, TypeError)` does not catch. -/
def check_compatibility (gristType dsAnnotationType : String) (gristValue : PyVal) :
    Except PExc String :=
  let d := normalizeDsType dsAnnotationType
  match compatRowFor gristType with
  | Option.none => .ok "incompatible"
  | some row =>
    let c0 := (row d).getD "incompatible"
    if pyIsNone gristValue then .ok c0
    else
      let c1 :=
        if d = "checkbox" && gristType = "Text" then
          if checkboxVocab.contains (strLower (pyStr gristValue)) then "compatible"
          else "incompatible"
        else c0
      if (d = "number" || d = "integer_number" || d = "decimal_number")
          && gristType = "Text" then
        if d = "integer_number" then
          match pyFloatParse (pyStr gristValue) with
          | some (.finite _) => .ok "compatible"
          | some .nan => .ok "incompatible"
          | some .inf => .error (.overflowError "cannot convert float infinity to integer")
          | some .neginf => .error (.overflowError "cannot convert float infinity to integer")
          | Option.none => .ok "incompatible"
        else
          match pyFloatParse (pyStr gristValue) with
          | some _ => .ok "compatible"
          | Option.none => .ok "incompatible"
      else .ok c1

/-- The truthy vocabulary of the checkbox coercion in
`DSClient.format_value_for_ds`. -/
def checkboxTruthyVocab : List String := ["true", "1", "oui", "yes", "on"]

/-- The date/datetime branch of `DSClient.format_value_for_ds` for a
non-empty value: a string not already ending in `Z` gets a zero
time-of-day and UTC marker appended (datetime destinations lacking a time
component), a UTC marker appended (values with a time component), or — for
a date destination without a time component — is left unchanged.  The
redundant inner `not value.endswith('Z')` re-check of the source is always
true at that point and is collapsed. -/
def formatDateValue (d : String) (value : PyVal) : PyVal :=
  match value with
  | .str s =>
    if s.data.getLast? = some 'Z' then .str s
    else if !(s.data.contains 'T') then
      (if d = "datetime" then .str (s ++ "T00:00:00.000Z") else .str s)
    else .str (s ++ "Z")
  | v => v

/-- Branches of `DSClient.format_value_for_ds` after the empty check, on the
normalized destination type.  `.error` marks an uncaught exception
(`OverflowError` from `int(float(...))` / `float(huge int)`; the function
only catches `ValueError` and `TypeError`, for which it falls back to
`str(value)`). -/
def formatNonEmpty (d : String) (value : PyVal) : Except PExc PyVal :=
  if d = "checkbox" then
    match value with
    | .bool b => .ok (.bool b)
    | v => .ok (.bool (checkboxTruthyVocab.contains (strLower (pyStr v))))
  else if d = "number" || d = "decimal_number" then
    match pyFloatOfVal value with
    | .ok f => .ok (.float f)
    | .error (.overflowError m) => .error (.overflowError m)
    | .error _ => .ok (.str (pyStr value))
  else if d = "integer_number" then
    match pyFloatOfVal value with
    | .error (.overflowError m) => .error (.overflowError m)
    | .error _ => .ok (.str (pyStr value))
    | .ok f =>
      match intOfPFloat f with
      | .ok n => .ok (.int n)
      | .error (.overflowError m) => .error (.overflowError m)
      | .error _ => .ok (.str (pyStr value))
  else if d = "date" || d = "datetime" then
    .ok (formatDateValue d value)
  else .ok (.str (pyStr value))

/-- Model of `DSClient.format_value_for_ds(value, ds_annotation_type)`: `None` and
the empty string coerce to `None`; otherwise dispatch on the normalized
destination type. -/
def format_value_for_ds (value : PyVal) (dsAnnotationType : String) : Except PExc PyVal :=
  if pyIsNone value || pyEq value (.str "") then .ok PyVal.none
  else formatNonEmpty (normalizeDsType dsAnnotationType) value

/-- Observable outcome of `DSClient.update_annotation_by_type`: either an
immediate return value (the empty-value short-circuit), or the invocation
of one type-specific update operation with the value it receives.  The
update operations themselves are external GraphQL mutations and are
abstracted to their selector. -/
inductive UpdDispatch where
  | ret (ok : Bool) (payload : String)
  | invoke (op : String) (value : PyVal)

/-- Model of `DSClient.update_annotation_by_type(..., value, annotation_type)`: a
falsy value other than `False` itself short-circuits to success with
message `Valeur vide ignorée`; otherwise the normalized type selects the
update operation, unknown types falling back to the text operation with
`str(value)`. -/
def update_annotation_by_type (value : PyVal) (annotationType : String) : UpdDispatch :=
  if !pyTruthy value && !pyEq value (.bool false) then .ret true "Valeur vide ignorée"
  else
    let d := normalizeDsType annotationType
    if d = "text" || d = "textarea" then .invoke "text" value
    else if d = "checkbox" then .invoke "checkbox" value
    else if d = "date" then .invoke "date" value
    else if d = "datetime" then .invoke "datetime" value
    else if d = "integer_number" then .invoke "integer_number" value
    else if d = "decimal_number" then .invoke "decimal_number" value
    else if d = "drop_down_list" then .invoke "drop_down_list" value
    else .invoke "text" (.str (pyStr value))

/-! ## sync_engine.py : record synchronizer and batch orchestrator -/

/-- A DS annotation as returned by `get_dossier_annotations`: identity,
label, and the runtime-discovered type (`ds_type`, absent when discovery
failed). -/
structure Ann where
  aid : String
  label : String
  dsType : Option String

/-- One entry of `result['updates']` in `SyncEngine.sync_record`. -/
structure Upd where
  grist_column : String
  annotation_label : String
  annotation_id : String
  value : PyVal
  ds_type : String
  grist_type : String
  compatibility : String
  status : String

/-- The `result` dict of `SyncEngine.sync_record` for one record. -/
structure SyncRecOutcome where
  grist_record_id : Int
  dossier_number : Option Int
  dossier_uuid : Option String
  updates : List Upd
  errors : List String
  status : String

/-- Conversion and validation of the raw dossier-number value
(`sync_record` lines 217–231): strings are stripped and parsed with
`int()`, ints and bools convert directly, floats truncate (`OverflowError`
on infinities escapes the local `except (ValueError, TypeError)`), other
types raise `ValueError`; a non-positive result raises `ValueError`. -/
def dossierParse (raw : PyVal) : Except PExc Int :=
  let conv : Except PExc Int :=
    match raw with
    | .str s =>
      match pyIntParse (String.mk (stripChars s.data)) with
      | some n => .ok n
      | Option.none =>
        .error (.valueError ("invalid literal for int() with base 10: '"
          ++ String.mk (stripChars s.data) ++ "'"))
    | .bool b => .ok (if b then 1 else 0)
    | .int n => .ok n
    | .float (.finite q) => .ok (ratTrunc q)
    | .float .nan => .error (.valueError "cannot convert float NaN to integer")
    | .float .inf => .error (.overflowError "cannot convert float infinity to integer")
    | .float .neginf => .error (.overflowError "cannot convert float infinity to integer")
    | v => .error (.valueError ("Type non supporté: " ++ pyTypeName v))
  match conv with
  | .ok n => if n ≤ 0 then .error (.valueError "Le numéro de dossier doit être positif") else .ok n
  | e => e

/-- Lookup `final_annotation_types.get(label, 'text')`: dynamic types discovered
from the fetched annotations override the configured static types, with
`'text'` as ultimate default. -/
def finalTypeFor (cfgTypes : List (String × String)) (anns : List Ann) (lab : String) : String :=
  match dlookup (anns.map (fun a => (a.label, a.dsType.getD "text"))) lab with
  | some t => t
  | Option.none =>
    match dlookup cfgTypes lab with
    | some t => t
    | Option.none => "text"

/-- Outcome of one iteration of the per-field loop of `sync_record`. -/
inductive FieldStep where
  | skipAbsent
  | skipEmpty
  | errField (msg : String)
  | recorded (u : Upd)
  | raised (e : PExc)

/-- Is the step a silent skip (no compatibility check, no update attempt,
no error recorded)? -/
def FieldStep.isSkip : FieldStep → Bool
  | .skipAbsent => true
  | .skipEmpty => true
  | _ => false

/-- One iteration of the per-field loop of `SyncEngine.sync_record`
(lines 270–324).  `colType` is the `GristClient.get_column_type` oracle
(total, defaults to `Text`); `updOracle` gives the `(success, payload)`
result of `DSClient.update_annotation_by_type` for an annotation id and
value. -/
def processField (dryRun : Bool) (colType : String → String)
    (updOracle : String → PyVal → Bool × String) (fields : Fields)
    (annsByLabel : List (String × Ann)) (ftypes : String → String)
    (gc lab : String) : FieldStep :=
  match alookup fields gc with
  | Option.none => .skipAbsent
  | some v =>
    if pyIsNone v || (pyEq v (.str "") && !(ftypes lab = "checkbox")) then .skipEmpty
    else
      match dlookup annsByLabel lab with
      | Option.none => .errField ("Annotation '" ++ lab ++ "' non trouvée")
      | some ann =>
        let dsT := ftypes lab
        let gt := colType gc
        match check_compatibility gt dsT v with
        | .error e => .raised e
        | .ok compat =>
          if compat = "incompatible" then
            .errField ("Types incompatibles pour " ++ gc ++ ": " ++ gt ++ " → " ++ dsT)
          else if dryRun then
            .recorded ⟨gc, lab, ann.aid, v, dsT, gt, compat, "dry_run"⟩
          else
            match updOracle ann.aid v with
            | (true, _) => .recorded ⟨gc, lab, ann.aid, v, dsT, gt, compat, "success"⟩
            | (false, payload) =>
              .errField ("Erreur mise à jour " ++ lab ++ ": " ++ payload)

/-- The per-field loop: accumulates updates and errors in mapping order; an
uncaught exception aborts the loop, the outer `except Exception` appending
`str(e)` to the errors. -/
def syncFields (dryRun : Bool) (colType : String → String)
    (updOracle : String → PyVal → Bool × String) (fields : Fields)
    (annsByLabel : List (String × Ann)) (ftypes : String → String) :
    List (String × String) → List Upd → List String →
    List Upd × List String × Option PExc
  | [], us, es => (us, es, Option.none)
  | (gc, lab) :: rest, us, es =>
    match processField dryRun colType updOracle fields annsByLabel ftypes gc lab with
    | .skipAbsent => syncFields dryRun colType updOracle fields annsByLabel ftypes rest us es
    | .skipEmpty => syncFields dryRun colType updOracle fields annsByLabel ftypes rest us es
    | .errField m =>
      syncFields dryRun colType updOracle fields annsByLabel ftypes rest us (es ++ [m])
    | .recorded u =>
      syncFields dryRun colType updOracle fields annsByLabel ftypes rest (us ++ [u]) es
    | .raised e => (us, es ++ [pexcMsg e], some e)

/-- Model of `SyncEngine.sync_record(grist_record, dossier_mapping)`.  External
collaborators are oracles: `colType` for Grist column types, `fetchAnn`
for `get_dossier_annotations` (an `Except` since the fetch can fail),
`updOracle` for the annotation update calls. -/
def sync_record (dossierCol : String) (mapping : List (String × String))
    (cfgTypes : List (String × String)) (dryRun : Bool) (colType : String → String)
    (fetchAnn : Int → Except String (List Ann))
    (updOracle : String → PyVal → Bool × String) (rec : GristRecord)
    (dossierMapping : List (Int × String)) : SyncRecOutcome :=
  let rid := rec.rid
  let fields := rec.fields
  match alookup fields dossierCol with
  | Option.none =>
    ⟨rid, Option.none, Option.none, [], ["Colonne " ++ dossierCol ++ " introuvable"], "error"⟩
  | some raw =>
    if !pyTruthy raw then
      ⟨rid, Option.none, Option.none, [], ["Numéro de dossier vide"], "error"⟩
    else
      match dossierParse raw with
      | .error (.overflowError m) =>
        ⟨rid, Option.none, Option.none, [], [m], "error"⟩
      | .error e =>
        ⟨rid, Option.none, Option.none, [],
          ["Numéro de dossier invalide: " ++ pyStr raw ++ " (" ++ pexcMsg e ++ ")"], "error"⟩
      | .ok n =>
        match alookup dossierMapping n with
        | Option.none =>
          ⟨rid, some n, Option.none, [],
            ["Dossier " ++ toString n ++ " non trouvé dans la démarche"], "error"⟩
        | some uuid =>
          match fetchAnn n with
          | .error msg =>
            ⟨rid, some n, some uuid, [],
              ["Erreur récupération annotations: " ++ msg], "error"⟩
          | .ok anns =>
            let annsByLabel := anns.map (fun a => (a.label, a))
            let ftypes := finalTypeFor cfgTypes anns
            let r := syncFields dryRun colType updOracle fields annsByLabel ftypes mapping [] []
            let status :=
              match r.2.2 with
              | some _ => "error"
              | Option.none =>
                if !r.2.1.isEmpty then (if !r.1.isEmpty then "partial_error" else "error")
                else "success"
            ⟨rid, some n, some uuid, r.1, r.2.1, status⟩

/-- Truncation of the candidate list to the configured batch limit
(`execute_sync` lines 400–401). -/
def truncateToLimit {α : Type} (l : List α) (limit : Nat) : List α :=
  if l.length > limit then l.take limit else l

/-- One step of the per-record classification loop of `execute_sync`
(lines 432–439): a successful outcome goes to `results` and bumps the
success counter, any other outcome goes to `error_details`. -/
def classifyStep (syncF : GristRecord → SyncRecOutcome)
    (acc : List SyncRecOutcome × List SyncRecOutcome × Nat) (r : GristRecord) :
    List SyncRecOutcome × List SyncRecOutcome × Nat :=
  let o := syncF r
  if o.status = "success" then (acc.1 ++ [o], acc.2.1, acc.2.2 + 1)
  else (acc.1, acc.2.1 ++ [o], acc.2.2)

/-- The per-record classification loop of `execute_sync`:
accumulates `(results, error_details, successful_count)`. -/
def runRecordsLoop (syncF : GristRecord → SyncRecOutcome) (records : List GristRecord) :
    List SyncRecOutcome × List SyncRecOutcome × Nat :=
  records.foldl (classifyStep syncF) ([], [], 0)

/-- The aggregate counters of the `SyncResult` built by `execute_sync` once
per-record processing is reached. -/
structure BatchTail where
  processed : Nat
  successful : Nat
  errors : Nat
  results : List SyncRecOutcome
  error_details : List SyncRecOutcome

/-- The record-processing phase of `SyncEngine.execute_sync`: truncate the
candidates to the limit, synchronize each, aggregate. -/
def executeSyncBatch (syncF : GristRecord → SyncRecOutcome)
    (candidates : List GristRecord) (limit : Nat) : BatchTail :=
  let recs := truncateToLimit candidates limit
  let r := runRecordsLoop syncF recs
  ⟨recs.length, r.2.2, r.2.1.length, r.1, r.2.1⟩

/-- The claim-level failure condition on the dossier-number gate of
`sync_record`: the configured column is absent, its value is falsy,
conversion to a positive integer fails, or the parsed number is absent
from the destination identity map. -/
def dossierGateFails (fields : Fields) (dossierCol : String)
    (dmap : List (Int × String)) : Bool :=
  match alookup fields dossierCol with
  | Option.none => true
  | some v =>
    if !pyTruthy v then true
    else
      match dossierParse v with
      | .error _ => true
      | .ok n => (alookup dmap n).isNone

/-- Annotations of a destination case with one text field and one integer
field (concrete input used to evaluate the synchronizer). -/
def c6Anns : List Ann :=
  [⟨"id_a", "labA", some "text"⟩, ⟨"id_b", "labB", some "integer_number"⟩]

/-- A record whose first mapped field is an ordinary text value and whose
second mapped field holds the literal `"inf"` against an integer
destination. -/
def c6Rec : GristRecord :=
  ⟨7, [("num", PyVal.str "482"), ("A", PyVal.str "hello"), ("B", PyVal.str "inf")]⟩

/-- The outcome of `sync_record` on `c6Rec`: the first field updates
successfully, then the compatibility check of the second raises the
uncaught `OverflowError`. -/
def c6Outcome : SyncRecOutcome :=
  sync_record "num" [("A", "labA"), ("B", "labB")] [] false (fun _ => "Text")
    (fun _ => .ok c6Anns) (fun _ _ => (true, "ok")) c6Rec [(482, "uuid-482")]

/-! ## Helper lemmas -/

/-- Lemma: `pyIsNone` detects exactly the `None` value. -/
theorem pyIsNone_iff (v : PyVal) : pyIsNone v = true ↔ v = PyVal.none := by
  cases v <;> simp [pyIsNone]

/-- Python `==` on two strings is string equality. -/
theorem pyEq_str_str (a b : String) : pyEq (.str a) (.str b) = decide (a = b) := rfl

/-- Membership in a sorted insertion. -/
theorem mem_insertSorted (x a : String) (l : List String) :
    a ∈ insertSorted x l ↔ a = x ∨ a ∈ l := by
  induction l with
  | nil => simp [insertSorted]
  | cons y rest ih =>
    unfold insertSorted
    split
    · simp [List.mem_cons]
    · simp only [List.mem_cons, ih]
      tauto

/-- Sorting the keys preserves membership. -/
theorem mem_sortStrings (a : String) (l : List String) :
    a ∈ sortStrings l ↔ a ∈ l := by
  induction l with
  | nil => simp [sortStrings]
  | cons y rest ih =>
    unfold sortStrings at ih ⊢
    rw [List.foldr_cons, mem_insertSorted, ih, List.mem_cons]

/-- Two hex characters are emitted per byte. -/
theorem hexJoin_length (l : List Nat) : (hexJoin l).length = 2 * l.length := by
  induction l with
  | nil => rfl
  | cons b rest ih => simp [hexJoin, ih]; omega

/-- An MD5 hex digest has 32 characters. -/
theorem md5HexChars_length (msg : List Nat) : (md5HexChars msg).length = 32 := by
  unfold md5HexChars
  rw [hexJoin_length]
  simp [wordBytesLE]

/-- The truncated digest kept by `calculate_data_hash` has 12 characters. -/
theorem md5Hex12_length (msg : List Nat) : (md5Hex12 msg).length = 12 := by
  unfold md5Hex12
  show ((md5HexChars msg).take 12).length = 12
  rw [List.length_take, md5HexChars_length]
  rfl

/-- The projected key set only consults tracked columns. -/
theorem syncDataKeys_congr (f1 f2 : Fields) (cols : List String)
    (h : ∀ c ∈ cols, alookup f1 c = alookup f2 c) :
    syncDataKeys f1 cols = syncDataKeys f2 cols := by
  unfold syncDataKeys
  congr 1
  apply List.filter_congr
  intro c hc
  rw [h c hc]

/-- The serialized projection agrees on records that agree on the tracked
columns. -/
theorem syncEntries_congr (f1 f2 : Fields) (cols : List String)
    (h : ∀ c ∈ cols, alookup f1 c = alookup f2 c) :
    syncEntries f1 cols = syncEntries f2 cols := by
  unfold syncEntries
  rw [syncDataKeys_congr f1 f2 cols h]
  apply List.map_congr_left
  intro k hk
  have hkc : k ∈ cols := by
    have h1 : k ∈ syncDataKeys f2 cols := (mem_sortStrings k _).1 hk
    unfold syncDataKeys at h1
    have h2 := List.mem_dedup.1 h1
    exact (List.mem_filter.1 h2).1
  rw [h k hkc]

/-- Counting invariant of the classification loop: every processed record
adds one, either to the success counter or to `error_details`. -/
theorem classifyLoop_count (syncF : GristRecord → SyncRecOutcome) :
    ∀ (records : List GristRecord) (acc : List SyncRecOutcome × List SyncRecOutcome × Nat),
    (records.foldl (classifyStep syncF) acc).2.2
      + ((records.foldl (classifyStep syncF) acc).2.1).length
      = acc.2.2 + acc.2.1.length + records.length := by
  intro records
  induction records with
  | nil => intro acc; simp
  | cons r rest ih =>
    intro acc
    rw [List.foldl_cons, ih]
    unfold classifyStep
    by_cases h : (syncF r).status = "success" <;> simp [h] <;> omega

/-- The success counter counts exactly the `results` entries. -/
theorem classifyLoop_results (syncF : GristRecord → SyncRecOutcome) :
    ∀ (records : List GristRecord) (acc : List SyncRecOutcome × List SyncRecOutcome × Nat),
    ((records.foldl (classifyStep syncF) acc).1).length + acc.2.2
      = (records.foldl (classifyStep syncF) acc).2.2 + acc.1.length := by
  intro records
  induction records with
  | nil => intro acc; rw [List.foldl_nil]; omega
  | cons r rest ih =>
    intro acc
    rw [List.foldl_cons]
    have h2 := ih (classifyStep syncF acc r)
    by_cases hs : (syncF r).status = "success" <;>
      simp [classifyStep, hs] at h2 ⊢ <;> omega

/-- Everything in `results` has status `success` (relative to the seed). -/
theorem classifyLoop_res_status (syncF : GristRecord → SyncRecOutcome) :
    ∀ (records : List GristRecord) (acc : List SyncRecOutcome × List SyncRecOutcome × Nat),
    ∀ o ∈ (records.foldl (classifyStep syncF) acc).1, o ∈ acc.1 ∨ o.status = "success" := by
  intro records
  induction records with
  | nil => intro acc o ho; exact Or.inl ho
  | cons r rest ih =>
    intro acc o ho
    rw [List.foldl_cons] at ho
    rcases ih (classifyStep syncF acc r) o ho with h | h
    · unfold classifyStep at h
      by_cases hs : (syncF r).status = "success"
      · simp [hs] at h
        rcases h with h | h
        · exact Or.inl h
        · subst h; exact Or.inr hs
      · simp [hs] at h
        exact Or.inl h
    · exact Or.inr h

/-- Everything in `error_details` has a non-success status (relative to the
seed). -/
theorem classifyLoop_errs_status (syncF : GristRecord → SyncRecOutcome) :
    ∀ (records : List GristRecord) (acc : List SyncRecOutcome × List SyncRecOutcome × Nat),
    ∀ o ∈ (records.foldl (classifyStep syncF) acc).2.1,
      o ∈ acc.2.1 ∨ o.status ≠ "success" := by
  intro records
  induction records with
  | nil => intro acc o ho; exact Or.inl ho
  | cons r rest ih =>
    intro acc o ho
    rw [List.foldl_cons] at ho
    rcases ih (classifyStep syncF acc r) o ho with h | h
    · unfold classifyStep at h
      by_cases hs : (syncF r).status = "success"
      · simp [hs] at h
        exact Or.inl h
      · simp [hs] at h
        rcases h with h | h
        · exact Or.inl h
        · subst h; exact Or.inr hs
    · exact Or.inr h

/-- Truncation yields `min length limit` records. -/
theorem truncateToLimit_length {α : Type} (l : List α) (limit : Nat) :
    (truncateToLimit l limit).length = min l.length limit := by
  unfold truncateToLimit
  split
  · rw [List.length_take]; omega
  · omega

/-! ## Claims -/

/-- C8: the fingerprint `calculate_data_hash` is deterministic and depends
only on the projection onto the tracked field names — two records that
agree on every tracked field hash identically, whatever untracked fields
they carry — and the result is always a string of exactly 12 characters. -/
theorem C8_fingerprint_projection (f1 f2 : Fields) (tracked : List String)
    (h : ∀ c ∈ tracked, alookup f1 c = alookup f2 c) :
    calculate_data_hash f1 tracked = calculate_data_hash f2 tracked
    ∧ (calculate_data_hash f1 tracked).length = 12 := by
  constructor
  · unfold calculate_data_hash
    rw [syncEntries_congr f1 f2 tracked h]
  · unfold calculate_data_hash
    exact md5Hex12_length _

/-- Witness for C8 at concrete records that agree on the tracked columns
`a`, `b` but differ in untracked extra fields. -/
theorem C8_fingerprint_projection_witness :
    (∀ c ∈ ["a", "b"],
      alookup ([("a", PyVal.str "x"), ("b", PyVal.int 3)] : Fields) c
        = alookup ([("b", PyVal.int 3), ("a", PyVal.str "x"), ("zz", PyVal.bool true)] : Fields) c)
    ∧ calculate_data_hash [("a", PyVal.str "x"), ("b", PyVal.int 3)] ["a", "b"]
        = calculate_data_hash [("b", PyVal.int 3), ("a", PyVal.str "x"), ("zz", PyVal.bool true)] ["a", "b"]
    ∧ (calculate_data_hash [("a", PyVal.str "x"), ("b", PyVal.int 3)] ["a", "b"]).length = 12 := by
  refine ⟨?_, ?_, ?_⟩
  · intro c hc
    fin_cases hc <;> rfl
  · exact (C8_fingerprint_projection _ _ _ (by intro c hc; fin_cases hc <;> rfl)).1
  · exact (C8_fingerprint_projection _ _ _ (by intro c hc; fin_cases hc <;> rfl)).2

/-- C9: in the record-processing phase of `execute_sync`, `processed`
equals `successful` plus the number of outcomes in `error_details` (each of
which has a non-success status, while every outcome in `results` has
status `success`, so each processed record is counted exactly once), and
`processed` is the candidate count truncated to the configured limit. -/
theorem C9_batch_accounting (syncF : GristRecord → SyncRecOutcome)
    (candidates : List GristRecord) (limit : Nat) :
    (executeSyncBatch syncF candidates limit).processed
      = (executeSyncBatch syncF candidates limit).successful
        + ((executeSyncBatch syncF candidates limit).error_details).length
    ∧ (executeSyncBatch syncF candidates limit).errors
        = ((executeSyncBatch syncF candidates limit).error_details).length
    ∧ (executeSyncBatch syncF candidates limit).successful
        = ((executeSyncBatch syncF candidates limit).results).length
    ∧ (∀ o ∈ (executeSyncBatch syncF candidates limit).results, o.status = "success")
    ∧ (∀ o ∈ (executeSyncBatch syncF candidates limit).error_details, o.status ≠ "success")
    ∧ (executeSyncBatch syncF candidates limit).processed = min candidates.length limit := by
  unfold executeSyncBatch runRecordsLoop
  dsimp only
  have hc := classifyLoop_count syncF (truncateToLimit candidates limit) ([], [], 0)
  have hr := classifyLoop_results syncF (truncateToLimit candidates limit) ([], [], 0)
  refine ⟨?_, rfl, ?_, ?_, ?_, ?_⟩
  · simp only [List.length_nil] at hc
    omega
  · simp only [List.length_nil] at hr
    omega
  · intro o ho
    rcases classifyLoop_res_status syncF (truncateToLimit candidates limit) ([], [], 0) o ho with h | h
    · simp at h
    · exact h
  · intro o ho
    rcases classifyLoop_errs_status syncF (truncateToLimit candidates limit) ([], [], 0) o ho with h | h
    · simp at h
    · exact h
  · exact truncateToLimit_length candidates limit

/-- C10: `update_annotation_by_type` short-circuits to success with message
`Valeur vide ignorée` — invoking no update operation — exactly for values
that are falsy and not `==` to `False` (so `None`, the empty string, the
empty list), while boolean `False` and numeric `0` (which compares equal to
`False`) are dispatched to the type-specific update operation. -/
theorem C10_empty_value_short_circuit :
    (∀ (v : PyVal) (t : String),
      update_annotation_by_type v t = .ret true "Valeur vide ignorée"
        ↔ (pyTruthy v = false ∧ pyEq v (.bool false) = false))
    ∧ (∀ t : String, update_annotation_by_type PyVal.none t = .ret true "Valeur vide ignorée")
    ∧ (∀ t : String, update_annotation_by_type (.str "") t = .ret true "Valeur vide ignorée")
    ∧ (∀ t : String, update_annotation_by_type (.list []) t = .ret true "Valeur vide ignorée")
    ∧ update_annotation_by_type (.bool false) "checkbox" = .invoke "checkbox" (.bool false)
    ∧ update_annotation_by_type (.int 0) "checkbox" = .invoke "checkbox" (.int 0)
    ∧ update_annotation_by_type (.float (.finite ⟨0, 1⟩)) "decimal_number"
        = .invoke "decimal_number" (.float (.finite ⟨0, 1⟩)) := by
  refine ⟨?_, fun t => rfl, fun t => rfl, fun t => rfl, rfl, rfl, rfl⟩
  intro v t
  unfold update_annotation_by_type
  by_cases hc : (!pyTruthy v && !pyEq v (.bool false)) = true
  · rw [if_pos hc]
    simp only [Bool.and_eq_true, Bool.not_eq_true'] at hc
    simp [hc.1, hc.2]
  · rw [if_neg hc]
    have hc2 : ¬(pyTruthy v = false ∧ pyEq v (.bool false) = false) := by
      intro hand
      exact hc (by simp [hand.1, hand.2])
    constructor
    · intro hl
      dsimp only at hl
      split_ifs at hl
    · intro hr
      exact absurd hr hc2

/-- C1: a record examined by `get_records_to_sync` that has a truthy
dossier number and whose fields contain the status column is selected
exactly when its status is `None`, empty, `error` or `pending`, or when
its status is `success`, change detection is enabled, a tracked-column set
is configured, and the freshly computed fingerprint differs from the
stored `sync_hash`; in every other case it is not selected. -/
theorem C1_candidate_selection (fields : Fields) (dossierCol statusCol : String)
    (cols : List String) (detect : Bool) (dv st : PyVal)
    (hd : alookup fields dossierCol = some dv) (hdt : pyTruthy dv = true)
    (hs : alookup fields statusCol = some st) :
    recordKept dossierCol statusCol cols detect fields =
      (pyEq st PyVal.none || pyEq st (.str "") || pyEq st (.str "error")
        || pyEq st (.str "pending")
        || (pyEq st (.str "success") && detect && !cols.isEmpty
            && !(pyEq (.str (calculate_data_hash fields cols))
                  ((alookup fields "sync_hash").getD (.str ""))))) := by
  unfold recordKept statusShouldSync
  rw [hd, hs]
  dsimp only
  rw [hdt]
  cases hA : pyEq st PyVal.none <;>
  cases hB : pyEq st (.str "") <;>
  cases hC : pyEq st (.str "error") <;>
  cases hD : pyEq st (.str "pending") <;>
  cases hS : pyEq st (.str "success") <;>
  cases detect <;>
  cases hE : cols.isEmpty <;>
    simp [hA, hB, hC, hD, hS, hE]

/-- Witness for C1: a record with dossier number `5` and status `pending`
and no tracked columns is selected via the status branch. -/
theorem C1_candidate_selection_witness :
    pyTruthy (PyVal.str "5") = true
    ∧ alookup ([("num", PyVal.str "5"), ("sync_status", PyVal.str "pending")] : Fields)
        "sync_status" = some (PyVal.str "pending")
    ∧ recordKept "num" "sync_status" [] true
        [("num", PyVal.str "5"), ("sync_status", PyVal.str "pending")] =
      (pyEq (PyVal.str "pending") PyVal.none || pyEq (PyVal.str "pending") (.str "")
        || pyEq (PyVal.str "pending") (.str "error") || pyEq (PyVal.str "pending") (.str "pending")
        || (pyEq (PyVal.str "pending") (.str "success") && true && !([] : List String).isEmpty
            && !(pyEq (.str (calculate_data_hash
                    [("num", PyVal.str "5"), ("sync_status", PyVal.str "pending")] []))
                  ((alookup ([("num", PyVal.str "5"), ("sync_status", PyVal.str "pending")] : Fields)
                      "sync_hash").getD (.str ""))))) :=
  ⟨rfl, rfl,
    C1_candidate_selection _ "num" "sync_status" [] true (PyVal.str "5") (PyVal.str "pending")
      rfl rfl rfl⟩

/-- C7: whenever the dossier-number gate fails — the configured column is
absent, empty/falsy, not convertible (as trimmed string, int, or float) to
a strictly positive integer, or its parsed number is absent from the
destination identity map — `sync_record` terminates with status `error`
and an empty updates list, before examining any mapped field (the outcome
is identical with the column mapping replaced by the empty mapping). -/
theorem C7_dossier_gate (dossierCol : String) (mapping cfgTypes : List (String × String))
    (dryRun : Bool) (colType : String → String) (fetchAnn : Int → Except String (List Ann))
    (updOracle : String → PyVal → Bool × String) (rec : GristRecord)
    (dmap : List (Int × String))
    (h : dossierGateFails rec.fields dossierCol dmap = true) :
    (sync_record dossierCol mapping cfgTypes dryRun colType fetchAnn updOracle rec dmap).status
        = "error"
    ∧ (sync_record dossierCol mapping cfgTypes dryRun colType fetchAnn updOracle rec dmap).updates
        = []
    ∧ sync_record dossierCol mapping cfgTypes dryRun colType fetchAnn updOracle rec dmap
        = sync_record dossierCol [] cfgTypes dryRun colType fetchAnn updOracle rec dmap := by
  unfold dossierGateFails at h
  unfold sync_record
  dsimp only
  cases hl : alookup rec.fields dossierCol with
  | none => exact ⟨rfl, rfl, rfl⟩
  | some v =>
    rw [hl] at h
    dsimp only at h
    cases ht : pyTruthy v with
    | false =>
      simp [ht]
    | true =>
      simp only [ht, Bool.not_true, Bool.false_eq_true, if_false] at h ⊢
      cases hp : dossierParse v with
      | error e =>
        cases e <;> exact ⟨rfl, rfl, rfl⟩
      | ok n =>
        rw [hp] at h
        dsimp only at h ⊢
        cases hm : alookup dmap n with
        | none => exact ⟨rfl, rfl, rfl⟩
        | some uuid => rw [hm] at h; simp at h

/-- Witness for C7, the spec's scenario C: the dossier-number value
`"  482  "` parses to `482`; `482` is absent from the identity map, so the
record errors with a message naming dossier 482, with no updates and no
field examined. -/
theorem C7_dossier_gate_witness :
    dossierGateFails [("num", PyVal.str "  482  ")] "num" [(481, "u")] = true
    ∧ dossierParse (PyVal.str "  482  ") = .ok 482
    ∧ (sync_record "num" [("A", "labA")] [] false (fun _ => "Text") (fun _ => .ok [])
        (fun _ _ => (true, "")) ⟨1, [("num", PyVal.str "  482  ")]⟩ [(481, "u")]).status = "error"
    ∧ (sync_record "num" [("A", "labA")] [] false (fun _ => "Text") (fun _ => .ok [])
        (fun _ _ => (true, "")) ⟨1, [("num", PyVal.str "  482  ")]⟩ [(481, "u")]).updates = []
    ∧ (sync_record "num" [("A", "labA")] [] false (fun _ => "Text") (fun _ => .ok [])
        (fun _ _ => (true, "")) ⟨1, [("num", PyVal.str "  482  ")]⟩ [(481, "u")]).errors
      = ["Dossier 482 non trouvé dans la démarche"] :=
  ⟨rfl, rfl,
    (C7_dossier_gate "num" [("A", "labA")] [] false (fun _ => "Text") (fun _ => .ok [])
      (fun _ _ => (true, "")) ⟨1, [("num", PyVal.str "  482  ")]⟩ [(481, "u")] rfl).1,
    (C7_dossier_gate "num" [("A", "labA")] [] false (fun _ => "Text") (fun _ => .ok [])
      (fun _ _ => (true, "")) ⟨1, [("num", PyVal.str "  482  ")]⟩ [(481, "u")] rfl).2.1,
    rfl⟩

/-- C2 counterexample: a mapped field whose value is `None` against a
checkbox destination is silently skipped by the per-field loop (the
`value is None` test short-circuits before the boolean-destination
exemption), refuting the claim that a boolean-destination field with a
`None` value is still processed. -/
theorem C2_none_checkbox_counterexample :
    (processField false (fun _ => "Text") (fun _ _ => (true, "ok"))
        [("A", PyVal.none)] [("labA", ⟨"id_a", "labA", some "checkbox"⟩)]
        (fun _ => "checkbox") "A" "labA").isSkip = true
    ∧ alookup ([("A", PyVal.none)] : Fields) "A" = some PyVal.none
    ∧ ((fun _ => "checkbox") "labA" : String) = "checkbox" :=
  ⟨rfl, rfl, rfl⟩

/-- C2 as amended: a mapped field is skipped (no compatibility check, no
update attempt, no error recorded) exactly when the source field is absent
from the record, or its value is `None` (for every destination type,
boolean included), or its value is the empty string and the destination
type is not boolean; in particular a boolean-destination field with an
empty-string value, and any non-empty falsy literal such as `"false"` or
`"0"`, is still processed. -/
theorem C2_field_skip_fixed (dryRun : Bool) (colType : String → String)
    (updOracle : String → PyVal → Bool × String) (fields : Fields)
    (annsByLabel : List (String × Ann)) (ftypes : String → String) (gc lab : String) :
    (processField dryRun colType updOracle fields annsByLabel ftypes gc lab).isSkip = true
      ↔ (alookup fields gc = Option.none
          ∨ ∃ v, alookup fields gc = some v
              ∧ (v = PyVal.none
                 ∨ (pyEq v (.str "") = true ∧ ftypes lab ≠ "checkbox"))) := by
  unfold processField
  cases hl : alookup fields gc with
  | none => simp [FieldStep.isSkip]
  | some v =>
    dsimp only
    by_cases hcond : (pyIsNone v || (pyEq v (.str "") && !(ftypes lab = "checkbox"))) = true
    · rw [if_pos hcond]
      simp only [Bool.or_eq_true, Bool.and_eq_true, Bool.not_eq_true',
        decide_eq_false_iff_not] at hcond
      constructor
      · intro _
        right
        refine ⟨v, rfl, ?_⟩
        rcases hcond with h | ⟨h1, h2⟩
        · exact Or.inl ((pyIsNone_iff v).1 h)
        · exact Or.inr ⟨h1, h2⟩
      · intro _
        rfl
    · rw [if_neg hcond]
      constructor
      · intro hskip
        exfalso
        revert hskip
        repeat' split
        all_goals intro hskip
        all_goals simp [FieldStep.isSkip] at hskip
      · rintro (hnone | ⟨v2, hv2, hP⟩)
        · exact Option.noConfusion hnone
        · exfalso
          apply hcond
          injection hv2 with hv3
          subst hv3
          rcases hP with h | ⟨h1, h2⟩
          · subst h
            rfl
          · simp [h1, h2]

/-- C3 counterexample: a date-destination value lacking a time component is
returned unchanged by the coercer — no UTC marker is appended — refuting
the claim that such values get a UTC marker alone appended. -/
theorem C3_date_counterexample :
    format_value_for_ds (PyVal.str "2024-01-15") "date" = .ok (PyVal.str "2024-01-15")
    ∧ ("2024-01-15" : String) ≠ "2024-01-15" ++ "Z" :=
  ⟨rfl, by decide⟩

/-- C3 as amended: for every non-empty string value and date or datetime
destination, the coercer returns the value unchanged if it ends with the
UTC marker `Z`; otherwise, if it lacks a time component (`T`), it appends
a zero time-of-day and UTC marker when the destination is datetime and
returns the value unchanged when the destination is date; and if it has a
time component but no UTC marker it appends the UTC marker. -/
theorem C3_date_normalization (v : String) (d : String) (hv : v ≠ "")
    (hd : d = "date" ∨ d = "datetime") :
    format_value_for_ds (.str v) d = .ok (.str (
      if v.data.getLast? = some 'Z' then v
      else if !(v.data.contains 'T') then
        (if d = "datetime" then v ++ "T00:00:00.000Z" else v)
      else v ++ "Z")) := by
  have h2 : pyEq (.str v) (.str "") = false := by
    rw [pyEq_str_str]
    simp [hv]
  unfold format_value_for_ds
  rw [if_neg (by simp [pyIsNone, h2])]
  rcases hd with h | h <;> subst h
  · have hn : normalizeDsType "date" = "date" := rfl
    rw [hn]
    by_cases hz : v.data.getLast? = some 'Z'
    · simp [formatNonEmpty, formatDateValue, hz]
    · by_cases htc : 'T' ∈ v.data <;>
        simp [formatNonEmpty, formatDateValue, hz, htc]
  · have hn : normalizeDsType "datetime" = "datetime" := rfl
    rw [hn]
    by_cases hz : v.data.getLast? = some 'Z'
    · simp [formatNonEmpty, formatDateValue, hz]
    · by_cases htc : 'T' ∈ v.data <;>
        simp [formatNonEmpty, formatDateValue, hz, htc]

/-- Witness for the amended C3 at a concrete datetime value lacking a time
component. -/
theorem C3_date_normalization_witness :
    ("2024-05-01" : String) ≠ ""
    ∧ format_value_for_ds (.str "2024-05-01") "datetime" = .ok (.str (
        if ("2024-05-01" : String).data.getLast? = some 'Z' then "2024-05-01"
        else if !(("2024-05-01" : String).data.contains 'T') then
          (if ("datetime" : String) = "datetime" then "2024-05-01" ++ "T00:00:00.000Z"
           else "2024-05-01")
        else "2024-05-01" ++ "Z")) :=
  ⟨by decide, C3_date_normalization "2024-05-01" "datetime" (by decide) (Or.inr rfl)⟩

/-- C4: evaluation of the compatibility resolver with sample values.  The
checkbox vocabulary override and the numeric parse override behave as
claimed on ordinary values (`oui` is compatible and coerces to `true`,
`abc` is incompatible, `42.0` parses as an integer), but on the value
`inf` the integer destination raises an uncaught `OverflowError` —
`int(float('inf'))` — instead of resolving to `incompatible`, refuting the
claimed equivalence for the integer case. -/
theorem C4_value_override_eval :
    check_compatibility "Text" "checkbox" (.str "oui") = .ok "compatible"
    ∧ format_value_for_ds (.str "oui") "checkbox" = .ok (.bool true)
    ∧ check_compatibility "Text" "checkbox" (.str "peut-être") = .ok "incompatible"
    ∧ check_compatibility "Text" "integer_number" (.str "abc") = .ok "incompatible"
    ∧ check_compatibility "Text" "integer_number" (.str "42.0") = .ok "compatible"
    ∧ check_compatibility "Text" "decimal_number" (.str "abc") = .ok "incompatible"
    ∧ check_compatibility "Text" "decimal_number" (.str "3.5") = .ok "compatible"
    ∧ check_compatibility "Text" "integer_number" (.str "inf")
        = .error (.overflowError "cannot convert float infinity to integer") :=
  ⟨rfl, rfl, rfl, rfl, rfl, rfl, rfl, rfl⟩

/-- C5: evaluation of the compatibility resolver's totality.  Unknown
source types and unknown destination types do resolve to `incompatible`,
but the resolver is not total: with source type `Text`, destination
`integer_number` and sample value `Infinity` (which `float()` parses to an
infinity), `int(float(...))` raises `OverflowError`, which the
`except (ValueError, TypeError)` clause does not catch — the function
raises instead of returning a verdict. -/
theorem C5_totality_eval :
    check_compatibility "UnknownType" "text" PyVal.none = .ok "incompatible"
    ∧ check_compatibility "Text" "garbage_type" PyVal.none = .ok "incompatible"
    ∧ check_compatibility "Numeric" "garbage_type" PyVal.none = .ok "incompatible"
    ∧ check_compatibility "" "" PyVal.none = .ok "incompatible"
    ∧ check_compatibility "Text" "integer_number" (.str "Infinity")
        = .error (.overflowError "cannot convert float infinity to integer") :=
  ⟨rfl, rfl, rfl, rfl, rfl⟩

/-- C6: evaluation of the record synchronizer on `c6Rec`: the first mapped
field is updated successfully (one update entry), then the compatibility
check of the `"inf"` field raises the uncaught `OverflowError`, and the
outer exception handler forces the record status to `error` even though an
update entry was recorded — where the claim requires `partial_error`
whenever at least one error and at least one update entry were recorded. -/
theorem C6_status_divergence :
    c6Outcome.updates.length = 1
    ∧ c6Outcome.errors = ["cannot convert float infinity to integer"]
    ∧ c6Outcome.status = "error"
    ∧ c6Outcome.status ≠ "partial_error" :=
  ⟨rfl, rfl, rfl, by decide⟩
